import Mathlib

/-!
Shallow embedding of `src/trading_bot.py` (a Binance USDT-M futures
trading bot: a `BasicBot` facade over an exchange client, plus an
interactive command loop in `main`).

The exchange client (`binance.client.Client`) is external code; it is
modelled as a record of oracles, one per endpoint the bot calls, each
returning either a payload or an error string (a raised exception).
Python dictionaries are modelled as association lists over a small
JSON-like value type; Python floats as rationals (only control flow on
them matters here, never rounding).  Every facade method additionally
reports the list of client calls it issued, so that call-count and
no-retry properties can be stated.
-/

namespace TradingBot

/-- A JSON-like value, modelling the Python dict/str/float/bool payloads
the bot builds and returns. -/
inductive JVal where
  | str : String → JVal
  | num : ℚ → JVal
  | bool : Bool → JVal
  | obj : List (String × JVal) → JVal

/-- A Python dict with string keys, as an association list. -/
abbrev Resp := List (String × JVal)

/-- The Python membership test `'error' in result` on a dict. -/
def hasError (r : Resp) : Bool := (r.lookup "error").isSome

/-- The value printed by the loop as `result['error']` (only read when
`hasError` holds). -/
def errVal (r : Resp) : JVal := (r.lookup "error").getD (JVal.str "")

/-- The keyword arguments the bot passes to
`client.futures_create_order` (the `order_params` dict built in
`place_market_order`, `place_limit_order`, `place_stop_limit_order`). -/
structure OrderParams where
  symbol : String
  side : String
  type : String
  quantity : ℚ
  price : Option ℚ
  stopPrice : Option ℚ
  timeInForce : Option String
  reduceOnly : Option String
deriving DecidableEq

/-- One call issued to the exchange client, used to trace which remote
calls a facade method performs. -/
inductive CallEvent where
  | createOrder : OrderParams → CallEvent
  | account : CallEvent
  | exchangeInfo : CallEvent
  | symbolTicker : String → CallEvent
  | getOrder : String → Int → CallEvent
  | cancelOrder : String → Int → CallEvent
  | changeLeverage : String → Int → CallEvent
  | positionInformation : CallEvent
  | timeCall : CallEvent
deriving DecidableEq

/-- One asset record inside the futures account snapshot (the fields
`get_futures_balance` reads, already converted to numbers). -/
structure AssetRec where
  asset : String
  walletBalance : ℚ
  unrealizedProfit : ℚ
  marginBalance : ℚ
  maintMargin : ℚ
  initialMargin : ℚ
  positionInitialMargin : ℚ
  openOrderInitialMargin : ℚ

/-- The futures account snapshot returned by `client.futures_account`
(the fields `get_futures_balance` reads). -/
structure AccountInfo where
  totalWalletBalance : ℚ
  totalUnrealizedProfit : ℚ
  totalMarginBalance : ℚ
  totalPositionInitialMargin : ℚ
  totalOpenOrderInitialMargin : ℚ
  availableBalance : ℚ
  maxWithdrawAmount : ℚ
  assets : List AssetRec

/-- One entry of `client.futures_position_information` (the fields
`get_positions` reads). -/
structure PositionRec where
  symbol : String
  positionAmt : ℚ
  entryPrice : ℚ
  markPrice : ℚ
  unRealizedProfit : ℚ
  percentage : ℚ
  positionSide : String

/-- One entry of `exchange_info['symbols']`: the `symbol` key the lookup
in `get_symbol_info` compares against, plus the rest of the dict. -/
structure SymbolInfo where
  symbol : String
  info : Resp

/-- The payload of `client.futures_exchange_info`. -/
structure ExchangeInfo where
  symbols : List SymbolInfo

/-- The ticker returned by `client.futures_symbol_ticker`, with
`float(ticker['price'])` already applied. -/
structure Ticker where
  price : ℚ

/-- The exchange client (`binance.client.Client`): one oracle per
endpoint the bot calls.  `Except.error e` models a raised exception
whose `str` is `e`; the bot treats every exception type alike, so one
error string suffices. -/
structure Client where
  futures_create_order : OrderParams → Except String Resp
  futures_account : Unit → Except String AccountInfo
  futures_exchange_info : Unit → Except String ExchangeInfo
  futures_symbol_ticker : String → Except String Ticker
  futures_get_order : String → Int → Except String Resp
  futures_cancel_order : String → Int → Except String Resp
  futures_change_leverage : String → Int → Except String Resp
  futures_position_information : Unit → Except String (List PositionRec)
  futures_time : Unit → Except String String

/-- The `BasicBot` object: the fields set by `BasicBot.__init__`. -/
structure BasicBot where
  api_key : String
  api_secret : String
  testnet : Bool
  client : Client

/-- `BasicBot.__init__`: stores the credentials and the testnet flag and
builds the client from them (`mkClient` stands for the `Client`
constructor of the SDK). -/
def BasicBot.init (mkClient : String → String → Bool → Client)
    (api_key api_secret : String) (testnet : Bool) : BasicBot :=
  { api_key := api_key, api_secret := api_secret, testnet := testnet,
    client := mkClient api_key api_secret testnet }

/-- Result of a facade method returning a dict: the object after the
call, the returned dict, and the client calls issued. -/
structure RespOut where
  bot : BasicBot
  resp : Resp
  calls : List CallEvent

/-- Result of `get_current_price`: the object after the call, the float
returned, and the client calls issued. -/
structure PriceOut where
  bot : BasicBot
  price : ℚ
  calls : List CallEvent

/-- The `order_params` dict built by `place_market_order`. -/
def marketParams (symbol side : String) (quantity : ℚ) (reduce_only : Bool) :
    OrderParams :=
  { symbol := symbol, side := side, type := "MARKET", quantity := quantity,
    price := none, stopPrice := none, timeInForce := none,
    reduceOnly := if reduce_only then some "true" else none }

/-- The `order_params` dict built by `place_limit_order`. -/
def limitParams (symbol side : String) (quantity price : ℚ) (reduce_only : Bool) :
    OrderParams :=
  { symbol := symbol, side := side, type := "LIMIT", quantity := quantity,
    price := some price, stopPrice := none, timeInForce := some "GTC",
    reduceOnly := if reduce_only then some "true" else none }

/-- The `order_params` dict built by `place_stop_limit_order`. -/
def stopParams (symbol side : String) (quantity price stop_price : ℚ)
    (reduce_only : Bool) : OrderParams :=
  { symbol := symbol, side := side, type := "STOP", quantity := quantity,
    price := some price, stopPrice := some stop_price,
    timeInForce := some "GTC",
    reduceOnly := if reduce_only then some "true" else none }

/-- `BasicBot.place_market_order`: forwards the parameters to
`futures_create_order`; on any exception returns `{'error': str(e)}`. -/
def BasicBot.place_market_order (b : BasicBot) (symbol side : String)
    (quantity : ℚ) (reduce_only : Bool) : RespOut :=
  let ps := marketParams symbol side quantity reduce_only
  { bot := b,
    resp := match b.client.futures_create_order ps with
      | .ok order => order
      | .error e => [("error", JVal.str e)],
    calls := [CallEvent.createOrder ps] }

/-- `BasicBot.place_limit_order`: forwards the parameters (with
`timeInForce = 'GTC'`) to `futures_create_order`; on any exception
returns `{'error': str(e)}`. -/
def BasicBot.place_limit_order (b : BasicBot) (symbol side : String)
    (quantity price : ℚ) (reduce_only : Bool) : RespOut :=
  let ps := limitParams symbol side quantity price reduce_only
  { bot := b,
    resp := match b.client.futures_create_order ps with
      | .ok order => order
      | .error e => [("error", JVal.str e)],
    calls := [CallEvent.createOrder ps] }

/-- `BasicBot.place_stop_limit_order`: forwards the parameters (type
`'STOP'`, with both `price` and `stopPrice`) to `futures_create_order`;
on any exception returns `{'error': str(e)}`. -/
def BasicBot.place_stop_limit_order (b : BasicBot) (symbol side : String)
    (quantity price stop_price : ℚ) (reduce_only : Bool) : RespOut :=
  let ps := stopParams symbol side quantity price stop_price reduce_only
  { bot := b,
    resp := match b.client.futures_create_order ps with
      | .ok order => order
      | .error e => [("error", JVal.str e)],
    calls := [CallEvent.createOrder ps] }

/-- `BasicBot.place_oco_order`: places a limit order; if its payload
contains `'error'` returns it at once, otherwise places a stop-limit
order (note the source passes `stop_limit_price` as the limit price of
the stop leg) and returns the simulation dict holding both legs. -/
def BasicBot.place_oco_order (b : BasicBot) (symbol side : String)
    (quantity price stop_price stop_limit_price : ℚ) : RespOut :=
  let lo := b.place_limit_order symbol side quantity price false
  if hasError lo.resp then
    { bot := lo.bot, resp := lo.resp, calls := lo.calls }
  else
    let so := lo.bot.place_stop_limit_order symbol side quantity
      stop_limit_price stop_price false
    { bot := so.bot,
      resp := [("oco_simulation", JVal.bool true),
               ("limit_order", JVal.obj lo.resp),
               ("stop_order", JVal.obj so.resp)],
      calls := lo.calls ++ so.calls }

/-- The dict entry `get_futures_balance` builds for one asset with
positive wallet balance. -/
def assetEntry (a : AssetRec) : String × JVal :=
  (a.asset, JVal.obj
    [("walletBalance", JVal.num a.walletBalance),
     ("unrealizedProfit", JVal.num a.unrealizedProfit),
     ("marginBalance", JVal.num a.marginBalance),
     ("maintMargin", JVal.num a.maintMargin),
     ("initialMargin", JVal.num a.initialMargin),
     ("positionInitialMargin", JVal.num a.positionInitialMargin),
     ("openOrderInitialMargin", JVal.num a.openOrderInitialMargin)])

/-- `BasicBot.get_futures_balance`: fetches the account snapshot and
repackages the totals and the positive-balance assets; on any exception
returns the EMPTY dict `{}` (not an `'error'` payload). -/
def BasicBot.get_futures_balance (b : BasicBot) : RespOut :=
  { bot := b,
    resp := match b.client.futures_account () with
      | .ok info =>
          [("totalWalletBalance", JVal.num info.totalWalletBalance),
           ("totalUnrealizedProfit", JVal.num info.totalUnrealizedProfit),
           ("totalMarginBalance", JVal.num info.totalMarginBalance),
           ("totalPositionInitialMargin", JVal.num info.totalPositionInitialMargin),
           ("totalOpenOrderInitialMargin", JVal.num info.totalOpenOrderInitialMargin),
           ("availableBalance", JVal.num info.availableBalance),
           ("maxWithdrawAmount", JVal.num info.maxWithdrawAmount),
           ("assets", JVal.obj
             (((info.assets.filter (fun a => 0 < a.walletBalance)).map assetEntry)))]
      | .error _ => [],
    calls := [CallEvent.account] }

/-- `BasicBot.get_symbol_info`: scans `exchange_info['symbols']` for the
symbol; returns `{}` when not found or on any exception. -/
def BasicBot.get_symbol_info (b : BasicBot) (symbol : String) : RespOut :=
  { bot := b,
    resp := match b.client.futures_exchange_info () with
      | .ok info =>
          match info.symbols.find? (fun si => si.symbol = symbol) with
          | some si => si.info
          | none => []
      | .error _ => [],
    calls := [CallEvent.exchangeInfo] }

/-- `BasicBot.get_order_status`: forwards to `futures_get_order`; on any
exception returns `{'error': str(e)}`. -/
def BasicBot.get_order_status (b : BasicBot) (symbol : String)
    (order_id : Int) : RespOut :=
  { bot := b,
    resp := match b.client.futures_get_order symbol order_id with
      | .ok r => r
      | .error e => [("error", JVal.str e)],
    calls := [CallEvent.getOrder symbol order_id] }

/-- `BasicBot.cancel_order`: forwards to `futures_cancel_order`; on any
exception returns `{'error': str(e)}`. -/
def BasicBot.cancel_order (b : BasicBot) (symbol : String)
    (order_id : Int) : RespOut :=
  { bot := b,
    resp := match b.client.futures_cancel_order symbol order_id with
      | .ok r => r
      | .error e => [("error", JVal.str e)],
    calls := [CallEvent.cancelOrder symbol order_id] }

/-- `BasicBot.get_current_price`: returns `float(ticker['price'])`; on
ANY exception returns the float `0.0`. -/
def BasicBot.get_current_price (b : BasicBot) (symbol : String) : PriceOut :=
  { bot := b,
    price := match b.client.futures_symbol_ticker symbol with
      | .ok ticker => ticker.price
      | .error _ => 0,
    calls := [CallEvent.symbolTicker symbol] }

/-- The dict entry `get_positions` builds for one non-zero position. -/
def positionEntry (p : PositionRec) : String × JVal :=
  (p.symbol, JVal.obj
    [("symbol", JVal.str p.symbol),
     ("positionAmt", JVal.num p.positionAmt),
     ("entryPrice", JVal.num p.entryPrice),
     ("markPrice", JVal.num p.markPrice),
     ("unRealizedProfit", JVal.num p.unRealizedProfit),
     ("percentage", JVal.num p.percentage),
     ("positionSide", JVal.str p.positionSide)])

/-- `BasicBot.get_positions`: keeps the positions with non-zero size;
on any exception returns `{}`. -/
def BasicBot.get_positions (b : BasicBot) : RespOut :=
  { bot := b,
    resp := match b.client.futures_position_information () with
      | .ok positions =>
          (positions.filter (fun p => p.positionAmt ≠ 0)).map positionEntry
      | .error _ => [],
    calls := [CallEvent.positionInformation] }

/-- `BasicBot.set_leverage`: forwards to `futures_change_leverage`; on
any exception returns `{'error': str(e)}`. -/
def BasicBot.set_leverage (b : BasicBot) (symbol : String)
    (leverage : Int) : RespOut :=
  { bot := b,
    resp := match b.client.futures_change_leverage symbol leverage with
      | .ok r => r
      | .error e => [("error", JVal.str e)],
    calls := [CallEvent.changeLeverage symbol leverage] }

/-- `BasicBot.validate_connection`: calls `futures_time` then
`futures_account`; returns `False` as soon as either raises. -/
def BasicBot.validate_connection (b : BasicBot) :
    BasicBot × Bool × List CallEvent :=
  match b.client.futures_time () with
  | .error _ => (b, false, [CallEvent.timeCall])
  | .ok _ =>
    match b.client.futures_account () with
    | .error _ => (b, false, [CallEvent.timeCall, CallEvent.account])
    | .ok _ => (b, true, [CallEvent.timeCall, CallEvent.account])

/-!  The interactive command loop of `main`. -/

/-- One message printed by the loop body (the print statements of
`main`, with their dynamic payloads). -/
inductive Msg where
  | goodbye : Msg
  | balance : Resp → Msg
  | positions : Resp → Msg
  | noPositions : Msg
  | price : String → ℚ → Msg
  | usage : String → Msg
  | success : String → Resp → Msg
  | failure : String → JVal → Msg
  | unknown : Msg
  | localError : String → Msg

/-- Python `str.lower()` (for the ASCII command words used here). -/
def lowerString (s : String) : String := String.mk (s.data.map Char.toLower)

/-- Python `str.upper()` (for the ASCII symbols and sides used here). -/
def upperString (s : String) : String := String.mk (s.data.map Char.toUpper)

/-- Worker for `tokenize`: walks the characters keeping the current
(reversed) token, emitting it at each whitespace run. -/
def splitWsAux : List Char → List Char → List String
  | [], acc => if acc.isEmpty then [] else [String.mk acc.reverse]
  | c :: cs, acc =>
    if c.isWhitespace then
      if acc.isEmpty then splitWsAux cs []
      else String.mk acc.reverse :: splitWsAux cs []
    else splitWsAux cs (c :: acc)

/-- Python `line.strip().split()`: split on whitespace runs, dropping
empty tokens (leading and trailing whitespace included). -/
def tokenize (line : String) : List String := splitWsAux line.data []

/-- `command[i]`, read only after the loop's length guard. -/
def arg (command : List String) (i : Nat) : String := command.getD i ""

/-- The outcome of one loop iteration: the bot afterwards, the messages
printed, the client calls issued, and whether the loop breaks. -/
structure StepResult where
  bot : BasicBot
  msgs : List Msg
  calls : List CallEvent
  quit : Bool

/-- A usage-message iteration: print and `continue`, no client call. -/
def usageStep (b : BasicBot) (u : String) : StepResult :=
  ⟨b, [Msg.usage u], [], false⟩

/-- The outer `except Exception` of the loop catching a failed numeric
conversion: print the error and keep looping, no client call. -/
def localErrorStep (b : BasicBot) (tok : String) : StepResult :=
  ⟨b, [Msg.localError tok], [], false⟩

/-- The shared tail of the order-like branches: print the `'error'`
value on failure, the whole payload on success. -/
def orderStep (label : String) (o : RespOut) : StepResult :=
  ⟨o.bot,
   [if hasError o.resp then Msg.failure label (errVal o.resp)
    else Msg.success label o.resp],
   o.calls, false⟩

/-- One iteration of the `while True` loop of `main` on an input line.
`pf` and `pi` stand for Python `float` and `int` conversion, returning
`none` when the conversion raises `ValueError` (which the loop's outer
`except` catches). -/
def dispatch (pf : String → Option ℚ) (pi : String → Option Int)
    (b : BasicBot) (command : List String) : StepResult :=
  match command with
  | [] => ⟨b, [], [], false⟩
  | w :: _ =>
    let cmd := lowerString w
    if cmd = "quit" then ⟨b, [Msg.goodbye], [], true⟩
    else if cmd = "balance" then
      let o := b.get_futures_balance
      ⟨o.bot, [Msg.balance o.resp], o.calls, false⟩
    else if cmd = "positions" then
      let o := b.get_positions
      ⟨o.bot,
       [if o.resp.isEmpty then Msg.noPositions else Msg.positions o.resp],
       o.calls, false⟩
    else if cmd = "price" then
      if command.length < 2 then usageStep b "price <symbol>"
      else
        let symbol := upperString (arg command 1)
        let o := b.get_current_price symbol
        ⟨o.bot, [Msg.price symbol o.price], o.calls, false⟩
    else if cmd = "market" then
      if command.length < 4 then
        usageStep b "market <symbol> <side> <quantity>"
      else
        let symbol := upperString (arg command 1)
        let side := upperString (arg command 2)
        match pf (arg command 3) with
        | none => localErrorStep b (arg command 3)
        | some quantity =>
          orderStep "Market order"
            (b.place_market_order symbol side quantity false)
    else if cmd = "limit" then
      if command.length < 5 then
        usageStep b "limit <symbol> <side> <quantity> <price>"
      else
        let symbol := upperString (arg command 1)
        let side := upperString (arg command 2)
        match pf (arg command 3) with
        | none => localErrorStep b (arg command 3)
        | some quantity =>
          match pf (arg command 4) with
          | none => localErrorStep b (arg command 4)
          | some price =>
            orderStep "Limit order"
              (b.place_limit_order symbol side quantity price false)
    else if cmd = "stop" then
      if command.length < 6 then
        usageStep b "stop <symbol> <side> <quantity> <price> <stop_price>"
      else
        let symbol := upperString (arg command 1)
        let side := upperString (arg command 2)
        match pf (arg command 3) with
        | none => localErrorStep b (arg command 3)
        | some quantity =>
          match pf (arg command 4) with
          | none => localErrorStep b (arg command 4)
          | some price =>
            match pf (arg command 5) with
            | none => localErrorStep b (arg command 5)
            | some stop_price =>
              orderStep "Stop-limit order"
                (b.place_stop_limit_order symbol side quantity price
                  stop_price false)
    else if cmd = "oco" then
      if command.length < 7 then
        usageStep b
          "oco <symbol> <side> <quantity> <price> <stop_price> <stop_limit_price>"
      else
        let symbol := upperString (arg command 1)
        let side := upperString (arg command 2)
        match pf (arg command 3) with
        | none => localErrorStep b (arg command 3)
        | some quantity =>
          match pf (arg command 4) with
          | none => localErrorStep b (arg command 4)
          | some price =>
            match pf (arg command 5) with
            | none => localErrorStep b (arg command 5)
            | some stop_price =>
              match pf (arg command 6) with
              | none => localErrorStep b (arg command 6)
              | some stop_limit_price =>
                orderStep "OCO order"
                  (b.place_oco_order symbol side quantity price stop_price
                    stop_limit_price)
    else if cmd = "status" then
      if command.length < 3 then usageStep b "status <symbol> <order_id>"
      else
        let symbol := upperString (arg command 1)
        match pi (arg command 2) with
        | none => localErrorStep b (arg command 2)
        | some order_id =>
          orderStep "Order status" (b.get_order_status symbol order_id)
    else if cmd = "cancel" then
      if command.length < 3 then usageStep b "cancel <symbol> <order_id>"
      else
        let symbol := upperString (arg command 1)
        match pi (arg command 2) with
        | none => localErrorStep b (arg command 2)
        | some order_id =>
          orderStep "Cancel" (b.cancel_order symbol order_id)
    else if cmd = "leverage" then
      if command.length < 3 then usageStep b "leverage <symbol> <leverage>"
      else
        let symbol := upperString (arg command 1)
        match pi (arg command 2) with
        | none => localErrorStep b (arg command 2)
        | some leverage =>
          orderStep "Leverage" (b.set_leverage symbol leverage)
    else ⟨b, [Msg.unknown], [], false⟩

/-- Running the loop of `main` on a list of input lines: each line goes
through `dispatch`; the loop stops at `quit`, else threads the bot to
the next iteration.  Returns all messages printed and all client calls
issued. -/
def runLoop (pf : String → Option ℚ) (pi : String → Option Int) :
    BasicBot → List String → List Msg × List CallEvent
  | _, [] => ([], [])
  | b, line :: rest =>
    let r := dispatch pf pi b (tokenize line)
    if r.quit then (r.msgs, r.calls)
    else
      let t := runLoop pf pi r.bot rest
      (r.msgs ++ t.1, r.calls ++ t.2)

/-- The first tokens the loop recognizes (each has a dedicated branch
before the unknown-command fallback). -/
def knownCommands : List String :=
  ["quit", "balance", "positions", "price", "market", "limit", "stop",
   "oco", "status", "cancel", "leverage"]

/-- Required token count and usage text of each recognized command that
has a length guard, read off the `len(command) < n` checks of `main`. -/
def usageOf (cmd : String) : Option (Nat × String) :=
  if cmd = "price" then some (2, "price <symbol>")
  else if cmd = "market" then some (4, "market <symbol> <side> <quantity>")
  else if cmd = "limit" then
    some (5, "limit <symbol> <side> <quantity> <price>")
  else if cmd = "stop" then
    some (6, "stop <symbol> <side> <quantity> <price> <stop_price>")
  else if cmd = "oco" then
    some (7, "oco <symbol> <side> <quantity> <price> <stop_price> <stop_limit_price>")
  else if cmd = "status" then some (3, "status <symbol> <order_id>")
  else if cmd = "cancel" then some (3, "cancel <symbol> <order_id>")
  else if cmd = "leverage" then some (3, "leverage <symbol> <leverage>")
  else none

/-!  The command-line entry of `main` before the loop. -/

/-- The parsed command-line arguments of `main`. -/
structure Args where
  api_key : String
  api_secret : String
  testnet : Bool

/-- The value argparse gives a `store_true` option: `True` when the flag
is present, the declared default otherwise. -/
def storeTrue (default present : Bool) : Bool :=
  if present then true else default

/-- `parser.parse_args()` of `main`: `--api-key` and `--api-secret` are
required strings; `--testnet` is `store_true` with `default=True`. -/
def parse_args (api_key api_secret : String) (testnet_present : Bool) : Args :=
  { api_key := api_key, api_secret := api_secret,
    testnet := storeTrue true testnet_present }

/-- The bot `main` constructs: `BasicBot(args.api_key, args.api_secret,
args.testnet)`. -/
def mainBot (mkClient : String → String → Bool → Client)
    (api_key api_secret : String) (testnet_present : Bool) : BasicBot :=
  let args := parse_args api_key api_secret testnet_present
  BasicBot.init mkClient args.api_key args.api_secret args.testnet

/-!  Concrete fixtures used to evaluate the model on closed inputs. -/

/-- A concrete successful order acknowledgment. -/
def okResp : Resp := [("orderId", JVal.num 1), ("status", JVal.str "NEW")]

/-- A client on which every call succeeds. -/
def okClient : Client where
  futures_create_order := fun _ => .ok okResp
  futures_account := fun _ => .ok ⟨100, 0, 100, 0, 0, 100, 100, []⟩
  futures_exchange_info := fun _ => .ok ⟨[]⟩
  futures_symbol_ticker := fun _ => .ok ⟨50000⟩
  futures_get_order := fun _ _ => .ok okResp
  futures_cancel_order := fun _ _ => .ok okResp
  futures_change_leverage := fun _ _ => .ok okResp
  futures_position_information := fun _ => .ok []
  futures_time := fun _ => .ok "now"

/-- A client on which every call raises. -/
def errClient : Client where
  futures_create_order := fun _ => .error "boom"
  futures_account := fun _ => .error "boom"
  futures_exchange_info := fun _ => .error "boom"
  futures_symbol_ticker := fun _ => .error "boom"
  futures_get_order := fun _ _ => .error "boom"
  futures_cancel_order := fun _ _ => .error "boom"
  futures_change_leverage := fun _ _ => .error "boom"
  futures_position_information := fun _ => .error "boom"
  futures_time := fun _ => .error "boom"

/-- A client that rejects exactly the LIMIT-type order creations. -/
def limitFailClient : Client :=
  { okClient with
    futures_create_order := fun ps =>
      if ps.type = "LIMIT" then .error "limit boom" else .ok okResp }

/-- A client that rejects exactly the STOP-type order creations. -/
def stopFailClient : Client :=
  { okClient with
    futures_create_order := fun ps =>
      if ps.type = "STOP" then .error "stop boom" else .ok okResp }

/-- A client whose ticker reports a genuine price of zero. -/
def zeroTickClient : Client :=
  { okClient with futures_symbol_ticker := fun _ => .ok ⟨0⟩ }

/-- A bot over `okClient`. -/
def okBot : BasicBot := ⟨"key", "secret", true, okClient⟩

/-- A bot over `zeroTickClient`. -/
def zeroTickBot : BasicBot := ⟨"key", "secret", true, zeroTickClient⟩

/-- A bot over `errClient`. -/
def errBot : BasicBot := ⟨"key", "secret", true, errClient⟩

/-- A bot over `limitFailClient`. -/
def limitFailBot : BasicBot := ⟨"key", "secret", true, limitFailClient⟩

/-- A bot over `stopFailClient`. -/
def stopFailBot : BasicBot := ⟨"key", "secret", true, stopFailClient⟩

/-- A concrete stand-in for Python `float`: fails exactly on `"x"`. -/
def pfTest : String → Option ℚ := fun s => if s = "x" then none else some 1

/-- A concrete stand-in for Python `int`: fails exactly on `"x"`. -/
def piTest : String → Option Int := fun s => if s = "x" then none else some 7

/-!  Helper lemmas: no facade method and no loop iteration changes the
bot object (there is no assignment to `self` anywhere in the source). -/

@[simp] theorem place_market_order_bot (b : BasicBot) (s sd : String)
    (q : ℚ) (ro : Bool) : (b.place_market_order s sd q ro).bot = b := rfl

@[simp] theorem place_limit_order_bot (b : BasicBot) (s sd : String)
    (q p : ℚ) (ro : Bool) : (b.place_limit_order s sd q p ro).bot = b := rfl

@[simp] theorem place_stop_limit_order_bot (b : BasicBot) (s sd : String)
    (q p sp : ℚ) (ro : Bool) :
    (b.place_stop_limit_order s sd q p sp ro).bot = b := rfl

@[simp] theorem place_oco_order_bot (b : BasicBot) (s sd : String)
    (q p sp slp : ℚ) : (b.place_oco_order s sd q p sp slp).bot = b := by
  unfold BasicBot.place_oco_order
  dsimp only
  split <;> rfl

@[simp] theorem get_futures_balance_bot (b : BasicBot) :
    b.get_futures_balance.bot = b := rfl

@[simp] theorem get_symbol_info_bot (b : BasicBot) (s : String) :
    (b.get_symbol_info s).bot = b := rfl

@[simp] theorem get_order_status_bot (b : BasicBot) (s : String) (i : Int) :
    (b.get_order_status s i).bot = b := rfl

@[simp] theorem cancel_order_bot (b : BasicBot) (s : String) (i : Int) :
    (b.cancel_order s i).bot = b := rfl

@[simp] theorem get_current_price_bot (b : BasicBot) (s : String) :
    (b.get_current_price s).bot = b := rfl

@[simp] theorem get_positions_bot (b : BasicBot) :
    b.get_positions.bot = b := rfl

@[simp] theorem set_leverage_bot (b : BasicBot) (s : String) (i : Int) :
    (b.set_leverage s i).bot = b := rfl

@[simp] theorem orderStep_bot (l : String) (o : RespOut) :
    (orderStep l o).bot = o.bot := by
  unfold orderStep
  rfl

/-!  Per-branch evaluation lemmas for `dispatch`: each collapses the
if-chain of the loop body under the hypothesis naming the first token. -/

theorem dispatch_nil (pf : String → Option ℚ) (pi : String → Option Int)
    (b : BasicBot) : dispatch pf pi b [] = ⟨b, [], [], false⟩ := rfl

theorem dispatch_quit (pf : String → Option ℚ) (pi : String → Option Int)
    (b : BasicBot) (w : String) (rest : List String)
    (h : lowerString w = "quit") :
    dispatch pf pi b (w :: rest) = ⟨b, [Msg.goodbye], [], true⟩ := by
  simp [dispatch, h]

theorem dispatch_balance (pf : String → Option ℚ) (pi : String → Option Int)
    (b : BasicBot) (w : String) (rest : List String)
    (h : lowerString w = "balance") :
    dispatch pf pi b (w :: rest) =
      ⟨b, [Msg.balance b.get_futures_balance.resp],
       b.get_futures_balance.calls, false⟩ := by
  simp [dispatch, h]

theorem dispatch_positions (pf : String → Option ℚ) (pi : String → Option Int)
    (b : BasicBot) (w : String) (rest : List String)
    (h : lowerString w = "positions") :
    dispatch pf pi b (w :: rest) =
      ⟨b,
       [if b.get_positions.resp.isEmpty then Msg.noPositions
        else Msg.positions b.get_positions.resp],
       b.get_positions.calls, false⟩ := by
  simp [dispatch, h]

theorem dispatch_price_usage (pf : String → Option ℚ)
    (pi : String → Option Int) (b : BasicBot) (w : String)
    (rest : List String) (h : lowerString w = "price")
    (hlen : (w :: rest).length < 2) :
    dispatch pf pi b (w :: rest) = usageStep b "price <symbol>" := by
  simp only [List.length_cons] at hlen
  simp [dispatch, h, hlen]

theorem dispatch_price_run (pf : String → Option ℚ)
    (pi : String → Option Int) (b : BasicBot) (w : String)
    (rest : List String) (h : lowerString w = "price")
    (hlen : ¬ (w :: rest).length < 2) :
    dispatch pf pi b (w :: rest) =
      ⟨b,
       [Msg.price (upperString (arg (w :: rest) 1))
          (b.get_current_price (upperString (arg (w :: rest) 1))).price],
       (b.get_current_price (upperString (arg (w :: rest) 1))).calls, false⟩ := by
  simp only [List.length_cons] at hlen
  simp [dispatch, h, hlen]

theorem dispatch_market_usage (pf : String → Option ℚ)
    (pi : String → Option Int) (b : BasicBot) (w : String)
    (rest : List String) (h : lowerString w = "market")
    (hlen : (w :: rest).length < 4) :
    dispatch pf pi b (w :: rest) =
      usageStep b "market <symbol> <side> <quantity>" := by
  simp only [List.length_cons] at hlen
  simp [dispatch, h, hlen]

theorem dispatch_market_badnum (pf : String → Option ℚ)
    (pi : String → Option Int) (b : BasicBot) (w : String)
    (rest : List String) (h : lowerString w = "market")
    (hlen : ¬ (w :: rest).length < 4)
    (h3 : pf (arg (w :: rest) 3) = none) :
    dispatch pf pi b (w :: rest) = localErrorStep b (arg (w :: rest) 3) := by
  simp only [List.length_cons] at hlen
  simp [dispatch, h, hlen, h3]

theorem dispatch_market_run (pf : String → Option ℚ)
    (pi : String → Option Int) (b : BasicBot) (w : String)
    (rest : List String) (q : ℚ) (h : lowerString w = "market")
    (hlen : ¬ (w :: rest).length < 4)
    (h3 : pf (arg (w :: rest) 3) = some q) :
    dispatch pf pi b (w :: rest) =
      orderStep "Market order"
        (b.place_market_order (upperString (arg (w :: rest) 1))
          (upperString (arg (w :: rest) 2)) q false) := by
  simp only [List.length_cons] at hlen
  simp [dispatch, h, hlen, h3]

theorem dispatch_limit_usage (pf : String → Option ℚ)
    (pi : String → Option Int) (b : BasicBot) (w : String)
    (rest : List String) (h : lowerString w = "limit")
    (hlen : (w :: rest).length < 5) :
    dispatch pf pi b (w :: rest) =
      usageStep b "limit <symbol> <side> <quantity> <price>" := by
  simp only [List.length_cons] at hlen
  simp [dispatch, h, hlen]

theorem dispatch_limit_badnum (pf : String → Option ℚ)
    (pi : String → Option Int) (b : BasicBot) (w : String)
    (rest : List String) (h : lowerString w = "limit")
    (hlen : ¬ (w :: rest).length < 5)
    (hbad : pf (arg (w :: rest) 3) = none ∨ pf (arg (w :: rest) 4) = none) :
    (∃ t, dispatch pf pi b (w :: rest) = localErrorStep b t) := by
  simp only [List.length_cons] at hlen
  cases h3 : pf (arg (w :: rest) 3) with
  | none => exact ⟨arg (w :: rest) 3, by simp [dispatch, h, hlen, h3]⟩
  | some q =>
    have h4 : pf (arg (w :: rest) 4) = none := by
      rcases hbad with hb | hb
      · rw [h3] at hb; cases hb
      · exact hb
    exact ⟨arg (w :: rest) 4, by simp [dispatch, h, hlen, h3, h4]⟩

theorem dispatch_limit_run (pf : String → Option ℚ)
    (pi : String → Option Int) (b : BasicBot) (w : String)
    (rest : List String) (q p : ℚ) (h : lowerString w = "limit")
    (hlen : ¬ (w :: rest).length < 5)
    (h3 : pf (arg (w :: rest) 3) = some q)
    (h4 : pf (arg (w :: rest) 4) = some p) :
    dispatch pf pi b (w :: rest) =
      orderStep "Limit order"
        (b.place_limit_order (upperString (arg (w :: rest) 1))
          (upperString (arg (w :: rest) 2)) q p false) := by
  simp only [List.length_cons] at hlen
  simp [dispatch, h, hlen, h3, h4]

theorem dispatch_stop_usage (pf : String → Option ℚ)
    (pi : String → Option Int) (b : BasicBot) (w : String)
    (rest : List String) (h : lowerString w = "stop")
    (hlen : (w :: rest).length < 6) :
    dispatch pf pi b (w :: rest) =
      usageStep b "stop <symbol> <side> <quantity> <price> <stop_price>" := by
  simp only [List.length_cons] at hlen
  simp [dispatch, h, hlen]

theorem dispatch_stop_badnum (pf : String → Option ℚ)
    (pi : String → Option Int) (b : BasicBot) (w : String)
    (rest : List String) (h : lowerString w = "stop")
    (hlen : ¬ (w :: rest).length < 6)
    (hbad : pf (arg (w :: rest) 3) = none ∨ pf (arg (w :: rest) 4) = none ∨
      pf (arg (w :: rest) 5) = none) :
    (∃ t, dispatch pf pi b (w :: rest) = localErrorStep b t) := by
  simp only [List.length_cons] at hlen
  cases h3 : pf (arg (w :: rest) 3) with
  | none => exact ⟨arg (w :: rest) 3, by simp [dispatch, h, hlen, h3]⟩
  | some q =>
    cases h4 : pf (arg (w :: rest) 4) with
    | none => exact ⟨arg (w :: rest) 4, by simp [dispatch, h, hlen, h3, h4]⟩
    | some p =>
      have h5 : pf (arg (w :: rest) 5) = none := by
        rcases hbad with hb | hb | hb
        · rw [h3] at hb; cases hb
        · rw [h4] at hb; cases hb
        · exact hb
      exact ⟨arg (w :: rest) 5, by simp [dispatch, h, hlen, h3, h4, h5]⟩

theorem dispatch_stop_run (pf : String → Option ℚ)
    (pi : String → Option Int) (b : BasicBot) (w : String)
    (rest : List String) (q p sp : ℚ) (h : lowerString w = "stop")
    (hlen : ¬ (w :: rest).length < 6)
    (h3 : pf (arg (w :: rest) 3) = some q)
    (h4 : pf (arg (w :: rest) 4) = some p)
    (h5 : pf (arg (w :: rest) 5) = some sp) :
    dispatch pf pi b (w :: rest) =
      orderStep "Stop-limit order"
        (b.place_stop_limit_order (upperString (arg (w :: rest) 1))
          (upperString (arg (w :: rest) 2)) q p sp false) := by
  simp only [List.length_cons] at hlen
  simp [dispatch, h, hlen, h3, h4, h5]

theorem dispatch_oco_usage (pf : String → Option ℚ)
    (pi : String → Option Int) (b : BasicBot) (w : String)
    (rest : List String) (h : lowerString w = "oco")
    (hlen : (w :: rest).length < 7) :
    dispatch pf pi b (w :: rest) =
      usageStep b
        "oco <symbol> <side> <quantity> <price> <stop_price> <stop_limit_price>" := by
  simp only [List.length_cons] at hlen
  simp [dispatch, h, hlen]

theorem dispatch_oco_badnum (pf : String → Option ℚ)
    (pi : String → Option Int) (b : BasicBot) (w : String)
    (rest : List String) (h : lowerString w = "oco")
    (hlen : ¬ (w :: rest).length < 7)
    (hbad : pf (arg (w :: rest) 3) = none ∨ pf (arg (w :: rest) 4) = none ∨
      pf (arg (w :: rest) 5) = none ∨ pf (arg (w :: rest) 6) = none) :
    (∃ t, dispatch pf pi b (w :: rest) = localErrorStep b t) := by
  simp only [List.length_cons] at hlen
  cases h3 : pf (arg (w :: rest) 3) with
  | none => exact ⟨arg (w :: rest) 3, by simp [dispatch, h, hlen, h3]⟩
  | some q =>
    cases h4 : pf (arg (w :: rest) 4) with
    | none => exact ⟨arg (w :: rest) 4, by simp [dispatch, h, hlen, h3, h4]⟩
    | some p =>
      cases h5 : pf (arg (w :: rest) 5) with
      | none => exact ⟨arg (w :: rest) 5, by simp [dispatch, h, hlen, h3, h4, h5]⟩
      | some sp =>
        have h6 : pf (arg (w :: rest) 6) = none := by
          rcases hbad with hb | hb | hb | hb
          · rw [h3] at hb; cases hb
          · rw [h4] at hb; cases hb
          · rw [h5] at hb; cases hb
          · exact hb
        exact ⟨arg (w :: rest) 6,
          by simp [dispatch, h, hlen, h3, h4, h5, h6]⟩

theorem dispatch_oco_run (pf : String → Option ℚ)
    (pi : String → Option Int) (b : BasicBot) (w : String)
    (rest : List String) (q p sp slp : ℚ) (h : lowerString w = "oco")
    (hlen : ¬ (w :: rest).length < 7)
    (h3 : pf (arg (w :: rest) 3) = some q)
    (h4 : pf (arg (w :: rest) 4) = some p)
    (h5 : pf (arg (w :: rest) 5) = some sp)
    (h6 : pf (arg (w :: rest) 6) = some slp) :
    dispatch pf pi b (w :: rest) =
      orderStep "OCO order"
        (b.place_oco_order (upperString (arg (w :: rest) 1))
          (upperString (arg (w :: rest) 2)) q p sp slp) := by
  simp only [List.length_cons] at hlen
  simp [dispatch, h, hlen, h3, h4, h5, h6]

theorem dispatch_status_usage (pf : String → Option ℚ)
    (pi : String → Option Int) (b : BasicBot) (w : String)
    (rest : List String) (h : lowerString w = "status")
    (hlen : (w :: rest).length < 3) :
    dispatch pf pi b (w :: rest) = usageStep b "status <symbol> <order_id>" := by
  simp only [List.length_cons] at hlen
  simp [dispatch, h, hlen]

theorem dispatch_status_badnum (pf : String → Option ℚ)
    (pi : String → Option Int) (b : BasicBot) (w : String)
    (rest : List String) (h : lowerString w = "status")
    (hlen : ¬ (w :: rest).length < 3)
    (h2 : pi (arg (w :: rest) 2) = none) :
    dispatch pf pi b (w :: rest) = localErrorStep b (arg (w :: rest) 2) := by
  simp only [List.length_cons] at hlen
  simp [dispatch, h, hlen, h2]

theorem dispatch_status_run (pf : String → Option ℚ)
    (pi : String → Option Int) (b : BasicBot) (w : String)
    (rest : List String) (oid : Int) (h : lowerString w = "status")
    (hlen : ¬ (w :: rest).length < 3)
    (h2 : pi (arg (w :: rest) 2) = some oid) :
    dispatch pf pi b (w :: rest) =
      orderStep "Order status"
        (b.get_order_status (upperString (arg (w :: rest) 1)) oid) := by
  simp only [List.length_cons] at hlen
  simp [dispatch, h, hlen, h2]

theorem dispatch_cancel_usage (pf : String → Option ℚ)
    (pi : String → Option Int) (b : BasicBot) (w : String)
    (rest : List String) (h : lowerString w = "cancel")
    (hlen : (w :: rest).length < 3) :
    dispatch pf pi b (w :: rest) = usageStep b "cancel <symbol> <order_id>" := by
  simp only [List.length_cons] at hlen
  simp [dispatch, h, hlen]

theorem dispatch_cancel_badnum (pf : String → Option ℚ)
    (pi : String → Option Int) (b : BasicBot) (w : String)
    (rest : List String) (h : lowerString w = "cancel")
    (hlen : ¬ (w :: rest).length < 3)
    (h2 : pi (arg (w :: rest) 2) = none) :
    dispatch pf pi b (w :: rest) = localErrorStep b (arg (w :: rest) 2) := by
  simp only [List.length_cons] at hlen
  simp [dispatch, h, hlen, h2]

theorem dispatch_cancel_run (pf : String → Option ℚ)
    (pi : String → Option Int) (b : BasicBot) (w : String)
    (rest : List String) (oid : Int) (h : lowerString w = "cancel")
    (hlen : ¬ (w :: rest).length < 3)
    (h2 : pi (arg (w :: rest) 2) = some oid) :
    dispatch pf pi b (w :: rest) =
      orderStep "Cancel" (b.cancel_order (upperString (arg (w :: rest) 1)) oid) := by
  simp only [List.length_cons] at hlen
  simp [dispatch, h, hlen, h2]

theorem dispatch_leverage_usage (pf : String → Option ℚ)
    (pi : String → Option Int) (b : BasicBot) (w : String)
    (rest : List String) (h : lowerString w = "leverage")
    (hlen : (w :: rest).length < 3) :
    dispatch pf pi b (w :: rest) = usageStep b "leverage <symbol> <leverage>" := by
  simp only [List.length_cons] at hlen
  simp [dispatch, h, hlen]

theorem dispatch_leverage_badnum (pf : String → Option ℚ)
    (pi : String → Option Int) (b : BasicBot) (w : String)
    (rest : List String) (h : lowerString w = "leverage")
    (hlen : ¬ (w :: rest).length < 3)
    (h2 : pi (arg (w :: rest) 2) = none) :
    dispatch pf pi b (w :: rest) = localErrorStep b (arg (w :: rest) 2) := by
  simp only [List.length_cons] at hlen
  simp [dispatch, h, hlen, h2]

theorem dispatch_leverage_run (pf : String → Option ℚ)
    (pi : String → Option Int) (b : BasicBot) (w : String)
    (rest : List String) (lev : Int) (h : lowerString w = "leverage")
    (hlen : ¬ (w :: rest).length < 3)
    (h2 : pi (arg (w :: rest) 2) = some lev) :
    dispatch pf pi b (w :: rest) =
      orderStep "Leverage" (b.set_leverage (upperString (arg (w :: rest) 1)) lev) := by
  simp only [List.length_cons] at hlen
  simp [dispatch, h, hlen, h2]

theorem dispatch_unknown (pf : String → Option ℚ) (pi : String → Option Int)
    (b : BasicBot) (w : String) (rest : List String)
    (h : lowerString w ∉ knownCommands) :
    dispatch pf pi b (w :: rest) = ⟨b, [Msg.unknown], [], false⟩ := by
  simp only [knownCommands, List.mem_cons, List.not_mem_nil, or_false,
    not_or] at h
  obtain ⟨h1, h2, h3, h4, h5, h6, h7, h8, h9, h10, h11⟩ := h
  simp [dispatch, h1, h2, h3, h4, h5, h6, h7, h8, h9, h10, h11]

/-- Exhaustive case principle on the first token of a command line. -/
theorem cmd_cases (w : String) :
    lowerString w = "quit" ∨ lowerString w = "balance" ∨ lowerString w = "positions" ∨
    lowerString w = "price" ∨ lowerString w = "market" ∨ lowerString w = "limit" ∨
    lowerString w = "stop" ∨ lowerString w = "oco" ∨ lowerString w = "status" ∨
    lowerString w = "cancel" ∨ lowerString w = "leverage" ∨
    lowerString w ∉ knownCommands := by
  by_cases h : lowerString w ∈ knownCommands
  · simp only [knownCommands, List.mem_cons, List.not_mem_nil, or_false] at h
    tauto
  · tauto

theorem dispatch_bot (pf : String → Option ℚ) (pi : String → Option Int)
    (b : BasicBot) (command : List String) :
    (dispatch pf pi b command).bot = b := by
  cases command with
  | nil => rfl
  | cons w rest =>
    rcases cmd_cases w with h | h | h | h | h | h | h | h | h | h | h | h
    · rw [dispatch_quit pf pi b w rest h]
    · rw [dispatch_balance pf pi b w rest h]
    · rw [dispatch_positions pf pi b w rest h]
    · by_cases hlen : (w :: rest).length < 2
      · rw [dispatch_price_usage pf pi b w rest h hlen]; rfl
      · rw [dispatch_price_run pf pi b w rest h hlen]
    · by_cases hlen : (w :: rest).length < 4
      · rw [dispatch_market_usage pf pi b w rest h hlen]; rfl
      · cases h3 : pf (arg (w :: rest) 3) with
        | none => rw [dispatch_market_badnum pf pi b w rest h hlen h3]; rfl
        | some q => rw [dispatch_market_run pf pi b w rest q h hlen h3]; simp
    · by_cases hlen : (w :: rest).length < 5
      · rw [dispatch_limit_usage pf pi b w rest h hlen]; rfl
      · cases h3 : pf (arg (w :: rest) 3) with
        | none =>
          obtain ⟨t, ht⟩ := dispatch_limit_badnum pf pi b w rest h hlen (Or.inl h3)
          rw [ht]; rfl
        | some q =>
          cases h4 : pf (arg (w :: rest) 4) with
          | none =>
            obtain ⟨t, ht⟩ :=
              dispatch_limit_badnum pf pi b w rest h hlen (Or.inr h4)
            rw [ht]; rfl
          | some p => rw [dispatch_limit_run pf pi b w rest q p h hlen h3 h4]; simp
    · by_cases hlen : (w :: rest).length < 6
      · rw [dispatch_stop_usage pf pi b w rest h hlen]; rfl
      · cases h3 : pf (arg (w :: rest) 3) with
        | none =>
          obtain ⟨t, ht⟩ := dispatch_stop_badnum pf pi b w rest h hlen (Or.inl h3)
          rw [ht]; rfl
        | some q =>
          cases h4 : pf (arg (w :: rest) 4) with
          | none =>
            obtain ⟨t, ht⟩ :=
              dispatch_stop_badnum pf pi b w rest h hlen (Or.inr (Or.inl h4))
            rw [ht]; rfl
          | some p =>
            cases h5 : pf (arg (w :: rest) 5) with
            | none =>
              obtain ⟨t, ht⟩ :=
                dispatch_stop_badnum pf pi b w rest h hlen (Or.inr (Or.inr h5))
              rw [ht]; rfl
            | some sp =>
              rw [dispatch_stop_run pf pi b w rest q p sp h hlen h3 h4 h5]; simp
    · by_cases hlen : (w :: rest).length < 7
      · rw [dispatch_oco_usage pf pi b w rest h hlen]; rfl
      · cases h3 : pf (arg (w :: rest) 3) with
        | none =>
          obtain ⟨t, ht⟩ := dispatch_oco_badnum pf pi b w rest h hlen (Or.inl h3)
          rw [ht]; rfl
        | some q =>
          cases h4 : pf (arg (w :: rest) 4) with
          | none =>
            obtain ⟨t, ht⟩ :=
              dispatch_oco_badnum pf pi b w rest h hlen (Or.inr (Or.inl h4))
            rw [ht]; rfl
          | some p =>
            cases h5 : pf (arg (w :: rest) 5) with
            | none =>
              obtain ⟨t, ht⟩ := dispatch_oco_badnum pf pi b w rest h hlen
                (Or.inr (Or.inr (Or.inl h5)))
              rw [ht]; rfl
            | some sp =>
              cases h6 : pf (arg (w :: rest) 6) with
              | none =>
                obtain ⟨t, ht⟩ := dispatch_oco_badnum pf pi b w rest h hlen
                  (Or.inr (Or.inr (Or.inr h6)))
                rw [ht]; rfl
              | some slp =>
                rw [dispatch_oco_run pf pi b w rest q p sp slp h hlen h3 h4 h5 h6]
                simp
    · by_cases hlen : (w :: rest).length < 3
      · rw [dispatch_status_usage pf pi b w rest h hlen]; rfl
      · cases h2 : pi (arg (w :: rest) 2) with
        | none => rw [dispatch_status_badnum pf pi b w rest h hlen h2]; rfl
        | some oid => rw [dispatch_status_run pf pi b w rest oid h hlen h2]; simp
    · by_cases hlen : (w :: rest).length < 3
      · rw [dispatch_cancel_usage pf pi b w rest h hlen]; rfl
      · cases h2 : pi (arg (w :: rest) 2) with
        | none => rw [dispatch_cancel_badnum pf pi b w rest h hlen h2]; rfl
        | some oid => rw [dispatch_cancel_run pf pi b w rest oid h hlen h2]; simp
    · by_cases hlen : (w :: rest).length < 3
      · rw [dispatch_leverage_usage pf pi b w rest h hlen]; rfl
      · cases h2 : pi (arg (w :: rest) 2) with
        | none => rw [dispatch_leverage_badnum pf pi b w rest h hlen h2]; rfl
        | some lev => rw [dispatch_leverage_run pf pi b w rest lev h hlen h2]; simp
    · rw [dispatch_unknown pf pi b w rest h]

/-- The facts shared by every non-quit loop iteration: the bot is
unchanged, the loop keeps running, and the printed message is not the
unknown-command message. -/
def nonQuitOk (b : BasicBot) (r : StepResult) : Prop :=
  r.bot = b ∧ r.quit = false ∧ r.msgs ≠ [Msg.unknown]

theorem usageStep_nonQuit (b : BasicBot) (u : String) :
    nonQuitOk b (usageStep b u) := ⟨rfl, rfl, by simp [usageStep]⟩

theorem localErrorStep_nonQuit (b : BasicBot) (t : String) :
    nonQuitOk b (localErrorStep b t) := ⟨rfl, rfl, by simp [localErrorStep]⟩

theorem orderStep_nonQuit (b : BasicBot) (l : String) (o : RespOut)
    (hb : o.bot = b) : nonQuitOk b (orderStep l o) := by
  refine ⟨by simp [hb], rfl, ?_⟩
  unfold orderStep
  dsimp only
  split <;> simp

theorem dispatch_known_nonquit (pf : String → Option ℚ)
    (pi : String → Option Int) (b : BasicBot) (w : String)
    (rest : List String) (hk : lowerString w ∈ knownCommands)
    (hq : lowerString w ≠ "quit") :
    nonQuitOk b (dispatch pf pi b (w :: rest)) := by
  rcases cmd_cases w with h | h | h | h | h | h | h | h | h | h | h | h
  · exact absurd h hq
  · rw [dispatch_balance pf pi b w rest h]
    exact ⟨rfl, rfl, by simp⟩
  · rw [dispatch_positions pf pi b w rest h]
    refine ⟨rfl, rfl, ?_⟩
    split <;> simp
  · by_cases hlen : (w :: rest).length < 2
    · rw [dispatch_price_usage pf pi b w rest h hlen]
      exact usageStep_nonQuit b _
    · rw [dispatch_price_run pf pi b w rest h hlen]
      exact ⟨rfl, rfl, by simp⟩
  · by_cases hlen : (w :: rest).length < 4
    · rw [dispatch_market_usage pf pi b w rest h hlen]
      exact usageStep_nonQuit b _
    · cases h3 : pf (arg (w :: rest) 3) with
      | none =>
        rw [dispatch_market_badnum pf pi b w rest h hlen h3]
        exact localErrorStep_nonQuit b _
      | some q =>
        rw [dispatch_market_run pf pi b w rest q h hlen h3]
        exact orderStep_nonQuit b _ _ (by simp)
  · by_cases hlen : (w :: rest).length < 5
    · rw [dispatch_limit_usage pf pi b w rest h hlen]
      exact usageStep_nonQuit b _
    · cases h3 : pf (arg (w :: rest) 3) with
      | none =>
        obtain ⟨t, ht⟩ := dispatch_limit_badnum pf pi b w rest h hlen (Or.inl h3)
        rw [ht]; exact localErrorStep_nonQuit b _
      | some q =>
        cases h4 : pf (arg (w :: rest) 4) with
        | none =>
          obtain ⟨t, ht⟩ :=
            dispatch_limit_badnum pf pi b w rest h hlen (Or.inr h4)
          rw [ht]; exact localErrorStep_nonQuit b _
        | some p =>
          rw [dispatch_limit_run pf pi b w rest q p h hlen h3 h4]
          exact orderStep_nonQuit b _ _ (by simp)
  · by_cases hlen : (w :: rest).length < 6
    · rw [dispatch_stop_usage pf pi b w rest h hlen]
      exact usageStep_nonQuit b _
    · cases h3 : pf (arg (w :: rest) 3) with
      | none =>
        obtain ⟨t, ht⟩ := dispatch_stop_badnum pf pi b w rest h hlen (Or.inl h3)
        rw [ht]; exact localErrorStep_nonQuit b _
      | some q =>
        cases h4 : pf (arg (w :: rest) 4) with
        | none =>
          obtain ⟨t, ht⟩ :=
            dispatch_stop_badnum pf pi b w rest h hlen (Or.inr (Or.inl h4))
          rw [ht]; exact localErrorStep_nonQuit b _
        | some p =>
          cases h5 : pf (arg (w :: rest) 5) with
          | none =>
            obtain ⟨t, ht⟩ :=
              dispatch_stop_badnum pf pi b w rest h hlen (Or.inr (Or.inr h5))
            rw [ht]; exact localErrorStep_nonQuit b _
          | some sp =>
            rw [dispatch_stop_run pf pi b w rest q p sp h hlen h3 h4 h5]
            exact orderStep_nonQuit b _ _ (by simp)
  · by_cases hlen : (w :: rest).length < 7
    · rw [dispatch_oco_usage pf pi b w rest h hlen]
      exact usageStep_nonQuit b _
    · cases h3 : pf (arg (w :: rest) 3) with
      | none =>
        obtain ⟨t, ht⟩ := dispatch_oco_badnum pf pi b w rest h hlen (Or.inl h3)
        rw [ht]; exact localErrorStep_nonQuit b _
      | some q =>
        cases h4 : pf (arg (w :: rest) 4) with
        | none =>
          obtain ⟨t, ht⟩ :=
            dispatch_oco_badnum pf pi b w rest h hlen (Or.inr (Or.inl h4))
          rw [ht]; exact localErrorStep_nonQuit b _
        | some p =>
          cases h5 : pf (arg (w :: rest) 5) with
          | none =>
            obtain ⟨t, ht⟩ := dispatch_oco_badnum pf pi b w rest h hlen
              (Or.inr (Or.inr (Or.inl h5)))
            rw [ht]; exact localErrorStep_nonQuit b _
          | some sp =>
            cases h6 : pf (arg (w :: rest) 6) with
            | none =>
              obtain ⟨t, ht⟩ := dispatch_oco_badnum pf pi b w rest h hlen
                (Or.inr (Or.inr (Or.inr h6)))
              rw [ht]; exact localErrorStep_nonQuit b _
            | some slp =>
              rw [dispatch_oco_run pf pi b w rest q p sp slp h hlen h3 h4 h5 h6]
              exact orderStep_nonQuit b _ _ (by simp)
  · by_cases hlen : (w :: rest).length < 3
    · rw [dispatch_status_usage pf pi b w rest h hlen]
      exact usageStep_nonQuit b _
    · cases h2 : pi (arg (w :: rest) 2) with
      | none =>
        rw [dispatch_status_badnum pf pi b w rest h hlen h2]
        exact localErrorStep_nonQuit b _
      | some oid =>
        rw [dispatch_status_run pf pi b w rest oid h hlen h2]
        exact orderStep_nonQuit b _ _ (by simp)
  · by_cases hlen : (w :: rest).length < 3
    · rw [dispatch_cancel_usage pf pi b w rest h hlen]
      exact usageStep_nonQuit b _
    · cases h2 : pi (arg (w :: rest) 2) with
      | none =>
        rw [dispatch_cancel_badnum pf pi b w rest h hlen h2]
        exact localErrorStep_nonQuit b _
      | some oid =>
        rw [dispatch_cancel_run pf pi b w rest oid h hlen h2]
        exact orderStep_nonQuit b _ _ (by simp)
  · by_cases hlen : (w :: rest).length < 3
    · rw [dispatch_leverage_usage pf pi b w rest h hlen]
      exact usageStep_nonQuit b _
    · cases h2 : pi (arg (w :: rest) 2) with
      | none =>
        rw [dispatch_leverage_badnum pf pi b w rest h hlen h2]
        exact localErrorStep_nonQuit b _
      | some lev =>
        rw [dispatch_leverage_run pf pi b w rest lev h hlen h2]
        exact orderStep_nonQuit b _ _ (by simp)
  · exact absurd hk h

theorem dispatch_quit_false (pf : String → Option ℚ)
    (pi : String → Option Int) (b : BasicBot) (w : String)
    (rest : List String) (hq : lowerString w ≠ "quit") :
    (dispatch pf pi b (w :: rest)).quit = false := by
  by_cases hk : lowerString w ∈ knownCommands
  · exact (dispatch_known_nonquit pf pi b w rest hk hq).2.1
  · rw [dispatch_unknown pf pi b w rest hk]

/-- A non-quit iteration lets the loop continue on the rest of the
input. -/
theorem runLoop_cons_not_quit (pf : String → Option ℚ)
    (pi : String → Option Int) (b : BasicBot) (line : String)
    (rest : List String)
    (h : (dispatch pf pi b (tokenize line)).quit = false) :
    runLoop pf pi b (line :: rest) =
      ((dispatch pf pi b (tokenize line)).msgs ++
         (runLoop pf pi (dispatch pf pi b (tokenize line)).bot rest).1,
       (dispatch pf pi b (tokenize line)).calls ++
         (runLoop pf pi (dispatch pf pi b (tokenize line)).bot rest).2) := by
  simp [runLoop, h]

/-!  Claim theorems. -/

/-- C1 counterexample: with a client that rejects the limit leg, the OCO
operation issues only the limit-leg call — no stop order is attempted —
and the returned payload is the bare error dict, not one containing both
legs.  This refutes the claim that the stop order is attempted
regardless of the limit order's outcome. -/
theorem C1_counterexample :
    (limitFailBot.place_oco_order "BTCUSDT" "BUY" 1 100 95 94).calls =
      [CallEvent.createOrder (limitParams "BTCUSDT" "BUY" 1 100 false)] ∧
    (limitFailBot.place_oco_order "BTCUSDT" "BUY" 1 100 95 94).resp =
      [("error", JVal.str "limit boom")] :=
  ⟨rfl, rfl⟩

/-- C1 (amended): the OCO operation attempts the stop leg only when the
limit leg succeeded (on a limit-leg failure it returns that error
payload after a single client call); when the stop leg fails after the
limit leg succeeded, the limit leg is not cancelled or rolled back — no
cancel call is issued (the trace holds exactly the two create-order
calls) and the returned payload still contains both legs. -/
theorem C1_oco_legs (b : BasicBot) (symbol side : String)
    (q p sp slp : ℚ) :
    (∀ e,
      b.client.futures_create_order (limitParams symbol side q p false) =
          .error e →
        (b.place_oco_order symbol side q p sp slp).resp =
          [("error", JVal.str e)] ∧
        (b.place_oco_order symbol side q p sp slp).calls =
          [CallEvent.createOrder (limitParams symbol side q p false)]) ∧
    (∀ lo e2,
      b.client.futures_create_order (limitParams symbol side q p false) =
          .ok lo →
      hasError lo = false →
      b.client.futures_create_order (stopParams symbol side q slp sp false) =
          .error e2 →
        (b.place_oco_order symbol side q p sp slp).resp =
          [("oco_simulation", JVal.bool true),
           ("limit_order", JVal.obj lo),
           ("stop_order", JVal.obj [("error", JVal.str e2)])] ∧
        (b.place_oco_order symbol side q p sp slp).calls =
          [CallEvent.createOrder (limitParams symbol side q p false),
           CallEvent.createOrder (stopParams symbol side q slp sp false)]) := by
  constructor
  · intro e he
    unfold BasicBot.place_oco_order BasicBot.place_limit_order
    simp [he, hasError]
  · intro lo e2 hlo hnoerr hstop
    unfold BasicBot.place_oco_order BasicBot.place_limit_order
      BasicBot.place_stop_limit_order
    simp [hlo, hstop, hnoerr]

/-- C1 witness: both branches of `C1_oco_legs` realized on concrete
clients (limit leg failing; stop leg failing after a successful limit
leg). -/
theorem C1_witness :
    ((limitFailBot.place_oco_order "BTCUSDT" "BUY" 1 100 95 94).resp =
        [("error", JVal.str "limit boom")] ∧
     (limitFailBot.place_oco_order "BTCUSDT" "BUY" 1 100 95 94).calls =
        [CallEvent.createOrder (limitParams "BTCUSDT" "BUY" 1 100 false)]) ∧
    ((stopFailBot.place_oco_order "BTCUSDT" "BUY" 1 100 95 94).resp =
        [("oco_simulation", JVal.bool true),
         ("limit_order", JVal.obj okResp),
         ("stop_order", JVal.obj [("error", JVal.str "stop boom")])] ∧
     (stopFailBot.place_oco_order "BTCUSDT" "BUY" 1 100 95 94).calls =
        [CallEvent.createOrder (limitParams "BTCUSDT" "BUY" 1 100 false),
         CallEvent.createOrder (stopParams "BTCUSDT" "BUY" 1 94 95 false)]) :=
  ⟨(C1_oco_legs limitFailBot "BTCUSDT" "BUY" 1 100 95 94).1 "limit boom" rfl,
   (C1_oco_legs stopFailBot "BTCUSDT" "BUY" 1 100 95 94).2 okResp "stop boom"
     rfl rfl rfl⟩

/-- C2 counterexample: on a client where every call raises, the failed
market order returns an `'error'` dict while the failed balance query
returns the empty dict (no `'error'` key) and the failed price query
returns the float 0 — the failure payloads do not share one shape. -/
theorem C2_counterexample :
    hasError (errBot.place_market_order "BTCUSDT" "BUY" 1 false).resp = true ∧
    errBot.get_futures_balance.resp = [] ∧
    hasError errBot.get_futures_balance.resp = false ∧
    (errBot.get_current_price "BTCUSDT").price = 0 :=
  ⟨rfl, rfl, rfl, rfl⟩

/-- C2 (amended): every remote failure is caught and mapped to a fixed
local fallback, but its shape differs by operation: order placement,
order status, cancel, and leverage return the generic `{'error':
str(e)}` dict; balance, symbol info, and positions return an empty dict;
price returns the float 0.0.  No finer error taxonomy exists. -/
theorem C2_error_fallbacks (b : BasicBot) (symbol side : String)
    (q p sp : ℚ) (ro : Bool) (oid lev : Int) (e : String) :
    (b.client.futures_create_order (marketParams symbol side q ro) =
        .error e →
      (b.place_market_order symbol side q ro).resp =
        [("error", JVal.str e)]) ∧
    (b.client.futures_create_order (limitParams symbol side q p ro) =
        .error e →
      (b.place_limit_order symbol side q p ro).resp =
        [("error", JVal.str e)]) ∧
    (b.client.futures_create_order (stopParams symbol side q p sp ro) =
        .error e →
      (b.place_stop_limit_order symbol side q p sp ro).resp =
        [("error", JVal.str e)]) ∧
    (b.client.futures_get_order symbol oid = .error e →
      (b.get_order_status symbol oid).resp = [("error", JVal.str e)]) ∧
    (b.client.futures_cancel_order symbol oid = .error e →
      (b.cancel_order symbol oid).resp = [("error", JVal.str e)]) ∧
    (b.client.futures_change_leverage symbol lev = .error e →
      (b.set_leverage symbol lev).resp = [("error", JVal.str e)]) ∧
    (b.client.futures_account () = .error e →
      b.get_futures_balance.resp = []) ∧
    (b.client.futures_exchange_info () = .error e →
      (b.get_symbol_info symbol).resp = []) ∧
    (b.client.futures_position_information () = .error e →
      b.get_positions.resp = []) ∧
    (b.client.futures_symbol_ticker symbol = .error e →
      (b.get_current_price symbol).price = 0) := by
  refine ⟨?_, ?_, ?_, ?_, ?_, ?_, ?_, ?_, ?_, ?_⟩ <;> intro h
  · unfold BasicBot.place_market_order; simp [h]
  · unfold BasicBot.place_limit_order; simp [h]
  · unfold BasicBot.place_stop_limit_order; simp [h]
  · unfold BasicBot.get_order_status; simp [h]
  · unfold BasicBot.cancel_order; simp [h]
  · unfold BasicBot.set_leverage; simp [h]
  · unfold BasicBot.get_futures_balance; simp [h]
  · unfold BasicBot.get_symbol_info; simp [h]
  · unfold BasicBot.get_positions; simp [h]
  · unfold BasicBot.get_current_price; simp [h]

/-- C2 witness: all ten fallbacks of `C2_error_fallbacks` realized on
the all-failing client. -/
theorem C2_witness :
    (errBot.place_market_order "BTCUSDT" "BUY" 1 false).resp =
        [("error", JVal.str "boom")] ∧
    (errBot.place_limit_order "BTCUSDT" "BUY" 1 2 false).resp =
        [("error", JVal.str "boom")] ∧
    (errBot.place_stop_limit_order "BTCUSDT" "BUY" 1 2 3 false).resp =
        [("error", JVal.str "boom")] ∧
    (errBot.get_order_status "BTCUSDT" 5).resp = [("error", JVal.str "boom")] ∧
    (errBot.cancel_order "BTCUSDT" 5).resp = [("error", JVal.str "boom")] ∧
    (errBot.set_leverage "BTCUSDT" 10).resp = [("error", JVal.str "boom")] ∧
    errBot.get_futures_balance.resp = [] ∧
    (errBot.get_symbol_info "BTCUSDT").resp = [] ∧
    errBot.get_positions.resp = [] ∧
    (errBot.get_current_price "BTCUSDT").price = 0 := by
  obtain ⟨h1, h2, h3, h4, h5, h6, h7, h8, h9, h10⟩ :=
    C2_error_fallbacks errBot "BTCUSDT" "BUY" 1 2 3 false 5 10 "boom"
  exact ⟨h1 rfl, h2 rfl, h3 rfl, h4 rfl, h5 rfl, h6 rfl, h7 rfl, h8 rfl,
    h9 rfl, h10 rfl⟩

/-- C3 counterexample: with the side argument `"HOLD"` — neither `'BUY'`
nor `'SELL'` — the market-order operation still issues the
exchange-client call, with the invalid side forwarded verbatim; nothing
is rejected locally. -/
theorem C3_counterexample :
    (okBot.place_market_order "BTCUSDT" "HOLD" 1 false).calls =
      [CallEvent.createOrder (marketParams "BTCUSDT" "HOLD" 1 false)] :=
  rfl

/-- C3 (amended): the order-placement facade operations perform no local
validation at all: for every side argument — including values outside
`{'BUY','SELL'}` — exactly one exchange-client call is issued with the
parameters forwarded verbatim; validation happens only remotely (the
loop alone checks arity and numeric parsing). -/
theorem C3_forward_verbatim (b : BasicBot) (symbol side : String)
    (q p sp : ℚ) (ro : Bool) :
    (b.place_market_order symbol side q ro).calls =
      [CallEvent.createOrder (marketParams symbol side q ro)] ∧
    (b.place_limit_order symbol side q p ro).calls =
      [CallEvent.createOrder (limitParams symbol side q p ro)] ∧
    (b.place_stop_limit_order symbol side q p sp ro).calls =
      [CallEvent.createOrder (stopParams symbol side q p sp ro)] :=
  ⟨rfl, rfl, rfl⟩

/-- C4 counterexample: the first token `positions` lies outside the
claimed ten-command set, yet the loop dispatches it — it issues a facade
call (one `futures_position_information` client call) and answers with a
positions message, not the unknown-command message. -/
theorem C4_counterexample :
    dispatch pfTest piTest okBot (tokenize "positions") =
      ⟨okBot, [Msg.noPositions], [CallEvent.positionInformation], false⟩ :=
  rfl

/-- C4 (amended): the set of interactive commands the loop dispatches is
exactly {balance, positions, price, market, limit, stop, oco, status,
cancel, leverage, quit} — the claimed set plus `positions`; a first
token is answered with the unknown-command message and no facade call
precisely when its lowercase form lies outside this set. -/
theorem C4_command_set (pf : String → Option ℚ) (pi : String → Option Int)
    (b : BasicBot) (w : String) (rest : List String) :
    ((dispatch pf pi b (w :: rest)).msgs = [Msg.unknown] ∧
     (dispatch pf pi b (w :: rest)).calls = []) ↔
      lowerString w ∉ knownCommands := by
  constructor
  · intro hmsg
    by_contra hk
    by_cases hq : lowerString w = "quit"
    · rw [dispatch_quit pf pi b w rest hq] at hmsg
      simp at hmsg
    · exact (dispatch_known_nonquit pf pi b w rest hk hq).2.2 hmsg.1
  · intro hk
    rw [dispatch_unknown pf pi b w rest hk]
    exact ⟨rfl, rfl⟩

/-- C4 witness: a token outside the dispatched set gets the
unknown-command message and no client call. -/
theorem C4_witness :
    (dispatch pfTest piTest okBot ["frobnicate"]).msgs = [Msg.unknown] ∧
    (dispatch pfTest piTest okBot ["frobnicate"]).calls = [] :=
  (C4_command_set pfTest piTest okBot "frobnicate" []).mpr (by decide)

/-- C5: every recognized command with a length guard, when given fewer
tokens than its required count, prints exactly its usage message, issues
no client call, does not quit, and leaves the bot unchanged. -/
theorem C5_usage_guard (pf : String → Option ℚ) (pi : String → Option Int)
    (b : BasicBot) (w : String) (rest : List String) (n : Nat) (u : String)
    (hu : usageOf (lowerString w) = some (n, u))
    (hlen : (w :: rest).length < n) :
    dispatch pf pi b (w :: rest) = ⟨b, [Msg.usage u], [], false⟩ := by
  by_cases h1 : lowerString w = "price"
  · rw [h1] at hu
    simp [usageOf] at hu
    obtain ⟨hn, hu2⟩ := hu
    subst hn
    subst hu2
    rw [dispatch_price_usage pf pi b w rest h1 hlen]
    rfl
  by_cases h2 : lowerString w = "market"
  · rw [h2] at hu
    simp [usageOf] at hu
    obtain ⟨hn, hu2⟩ := hu
    subst hn
    subst hu2
    rw [dispatch_market_usage pf pi b w rest h2 hlen]
    rfl
  by_cases h3 : lowerString w = "limit"
  · rw [h3] at hu
    simp [usageOf] at hu
    obtain ⟨hn, hu2⟩ := hu
    subst hn
    subst hu2
    rw [dispatch_limit_usage pf pi b w rest h3 hlen]
    rfl
  by_cases h4 : lowerString w = "stop"
  · rw [h4] at hu
    simp [usageOf] at hu
    obtain ⟨hn, hu2⟩ := hu
    subst hn
    subst hu2
    rw [dispatch_stop_usage pf pi b w rest h4 hlen]
    rfl
  by_cases h5 : lowerString w = "oco"
  · rw [h5] at hu
    simp [usageOf] at hu
    obtain ⟨hn, hu2⟩ := hu
    subst hn
    subst hu2
    rw [dispatch_oco_usage pf pi b w rest h5 hlen]
    rfl
  by_cases h6 : lowerString w = "status"
  · rw [h6] at hu
    simp [usageOf] at hu
    obtain ⟨hn, hu2⟩ := hu
    subst hn
    subst hu2
    rw [dispatch_status_usage pf pi b w rest h6 hlen]
    rfl
  by_cases h7 : lowerString w = "cancel"
  · rw [h7] at hu
    simp [usageOf] at hu
    obtain ⟨hn, hu2⟩ := hu
    subst hn
    subst hu2
    rw [dispatch_cancel_usage pf pi b w rest h7 hlen]
    rfl
  by_cases h8 : lowerString w = "leverage"
  · rw [h8] at hu
    simp [usageOf] at hu
    obtain ⟨hn, hu2⟩ := hu
    subst hn
    subst hu2
    rw [dispatch_leverage_usage pf pi b w rest h8 hlen]
    rfl
  simp [usageOf, h1, h2, h3, h4, h5, h6, h7, h8] at hu

/-- C5 witness: the under-specified command `market BTCUSDT` yields the
usage message and no client call. -/
theorem C5_witness :
    dispatch pfTest piTest okBot ["market", "BTCUSDT"] =
      ⟨okBot, [Msg.usage "market <symbol> <side> <quantity>"], [], false⟩ :=
  C5_usage_guard pfTest piTest okBot "market" ["BTCUSDT"] 4
    "market <symbol> <side> <quantity>" rfl (by decide)

/-- C6: whenever a numeric argument of a recognized, fully supplied
command fails to parse, the iteration reports a local error, issues no
client call, does not quit, and leaves the bot unchanged; moreover any
non-quitting line lets the loop continue on the remaining input against
the same bot — in particular a parse failure never aborts the loop. -/
theorem C6_numeric_parse_local (pf : String → Option ℚ)
    (pi : String → Option Int) (b : BasicBot) (w : String)
    (rest : List String) :
    (lowerString w = "market" → ¬ (w :: rest).length < 4 →
      pf (arg (w :: rest) 3) = none →
      dispatch pf pi b (w :: rest) = localErrorStep b (arg (w :: rest) 3)) ∧
    (lowerString w = "limit" → ¬ (w :: rest).length < 5 →
      (pf (arg (w :: rest) 3) = none ∨ pf (arg (w :: rest) 4) = none) →
      ∃ t, dispatch pf pi b (w :: rest) = localErrorStep b t) ∧
    (lowerString w = "stop" → ¬ (w :: rest).length < 6 →
      (pf (arg (w :: rest) 3) = none ∨ pf (arg (w :: rest) 4) = none ∨
        pf (arg (w :: rest) 5) = none) →
      ∃ t, dispatch pf pi b (w :: rest) = localErrorStep b t) ∧
    (lowerString w = "oco" → ¬ (w :: rest).length < 7 →
      (pf (arg (w :: rest) 3) = none ∨ pf (arg (w :: rest) 4) = none ∨
        pf (arg (w :: rest) 5) = none ∨ pf (arg (w :: rest) 6) = none) →
      ∃ t, dispatch pf pi b (w :: rest) = localErrorStep b t) ∧
    (lowerString w = "status" → ¬ (w :: rest).length < 3 →
      pi (arg (w :: rest) 2) = none →
      dispatch pf pi b (w :: rest) = localErrorStep b (arg (w :: rest) 2)) ∧
    (lowerString w = "cancel" → ¬ (w :: rest).length < 3 →
      pi (arg (w :: rest) 2) = none →
      dispatch pf pi b (w :: rest) = localErrorStep b (arg (w :: rest) 2)) ∧
    (lowerString w = "leverage" → ¬ (w :: rest).length < 3 →
      pi (arg (w :: rest) 2) = none →
      dispatch pf pi b (w :: rest) = localErrorStep b (arg (w :: rest) 2)) ∧
    (∀ line rest2 t, dispatch pf pi b (tokenize line) = localErrorStep b t →
      runLoop pf pi b (line :: rest2) =
        (Msg.localError t :: (runLoop pf pi b rest2).1,
         (runLoop pf pi b rest2).2)) := by
  refine ⟨dispatch_market_badnum pf pi b w rest,
    dispatch_limit_badnum pf pi b w rest,
    dispatch_stop_badnum pf pi b w rest,
    dispatch_oco_badnum pf pi b w rest,
    dispatch_status_badnum pf pi b w rest,
    dispatch_cancel_badnum pf pi b w rest,
    dispatch_leverage_badnum pf pi b w rest, ?_⟩
  intro line rest2 t hd
  have hq : (dispatch pf pi b (tokenize line)).quit = false := by
    rw [hd]; rfl
  rw [runLoop_cons_not_quit pf pi b line rest2 hq, hd]
  rfl

/-- C6 witness: the line `market btcusdt buy x` (with `x` failing float
conversion) reports a local error with no client call, and the loop
continues to process the following line. -/
theorem C6_witness :
    dispatch pfTest piTest okBot ["market", "BTCUSDT", "BUY", "x"] =
      localErrorStep okBot "x" ∧
    runLoop pfTest piTest okBot ["market btcusdt buy x", "quit"] =
      (Msg.localError "x" :: (runLoop pfTest piTest okBot ["quit"]).1,
       (runLoop pfTest piTest okBot ["quit"]).2) :=
  ⟨(C6_numeric_parse_local pfTest piTest okBot "market"
      ["BTCUSDT", "BUY", "x"]).1 rfl (by decide) rfl,
   (C6_numeric_parse_local pfTest piTest okBot "market"
      ["BTCUSDT", "BUY", "x"]).2.2.2.2.2.2.2 "market btcusdt buy x" ["quit"]
      "x" rfl⟩

/-- C7: no facade operation mutates the bot: after every `BasicBot`
method (and every loop iteration), the object — hence its `api_key`,
`api_secret`, `testnet`, and `client` fields — equals the one built at
construction, and construction stores exactly the given credentials,
flag, and the client built from them.  No other state is threaded from
one command to the next. -/
theorem C7_no_state_mutation (mk : String → String → Bool → Client)
    (k s : String) (t : Bool) (b : BasicBot) (pf : String → Option ℚ)
    (pi : String → Option Int) (command : List String)
    (symbol side : String) (q p sp slp : ℚ) (ro : Bool) (oid lev : Int) :
    (BasicBot.init mk k s t).api_key = k ∧
    (BasicBot.init mk k s t).api_secret = s ∧
    (BasicBot.init mk k s t).testnet = t ∧
    (BasicBot.init mk k s t).client = mk k s t ∧
    (b.place_market_order symbol side q ro).bot = b ∧
    (b.place_limit_order symbol side q p ro).bot = b ∧
    (b.place_stop_limit_order symbol side q p sp ro).bot = b ∧
    (b.place_oco_order symbol side q p sp slp).bot = b ∧
    b.get_futures_balance.bot = b ∧
    (b.get_symbol_info symbol).bot = b ∧
    (b.get_order_status symbol oid).bot = b ∧
    (b.cancel_order symbol oid).bot = b ∧
    (b.get_current_price symbol).bot = b ∧
    b.get_positions.bot = b ∧
    (b.set_leverage symbol lev).bot = b ∧
    (b.validate_connection).1 = b ∧
    (dispatch pf pi b command).bot = b :=
  ⟨rfl, rfl, rfl, rfl, rfl, rfl, rfl,
   place_oco_order_bot b symbol side q p sp slp,
   rfl, rfl, rfl, rfl, rfl, rfl, rfl,
   by unfold BasicBot.validate_connection; repeat' split
      all_goals rfl,
   dispatch_bot pf pi b command⟩

/-- C8: nothing is retried — every facade operation issues at most one
client call (the OCO simulation's trace is either the limit-leg call
alone or exactly one call per leg); every non-quit first token leaves
the loop running; and a non-quitting line (in particular any failed
command) terminates only its own iteration, after which the loop
processes the remaining input with the unchanged bot. -/
theorem C8_no_retry (pf : String → Option ℚ) (pi : String → Option Int)
    (b : BasicBot) (symbol side : String) (q p sp slp : ℚ) (ro : Bool)
    (oid lev : Int) (w line : String) (rest rest2 : List String) :
    (b.place_market_order symbol side q ro).calls.length ≤ 1 ∧
    (b.place_limit_order symbol side q p ro).calls.length ≤ 1 ∧
    (b.place_stop_limit_order symbol side q p sp ro).calls.length ≤ 1 ∧
    b.get_futures_balance.calls.length ≤ 1 ∧
    (b.get_symbol_info symbol).calls.length ≤ 1 ∧
    (b.get_order_status symbol oid).calls.length ≤ 1 ∧
    (b.cancel_order symbol oid).calls.length ≤ 1 ∧
    (b.get_current_price symbol).calls.length ≤ 1 ∧
    b.get_positions.calls.length ≤ 1 ∧
    (b.set_leverage symbol lev).calls.length ≤ 1 ∧
    ((b.place_oco_order symbol side q p sp slp).calls =
        [CallEvent.createOrder (limitParams symbol side q p false)] ∨
     (b.place_oco_order symbol side q p sp slp).calls =
        [CallEvent.createOrder (limitParams symbol side q p false),
         CallEvent.createOrder (stopParams symbol side q slp sp false)]) ∧
    (lowerString w ≠ "quit" → (dispatch pf pi b (w :: rest)).quit = false) ∧
    ((dispatch pf pi b (tokenize line)).quit = false →
      runLoop pf pi b (line :: rest2) =
        ((dispatch pf pi b (tokenize line)).msgs ++
           (runLoop pf pi b rest2).1,
         (dispatch pf pi b (tokenize line)).calls ++
           (runLoop pf pi b rest2).2)) := by
  refine ⟨Nat.le_refl 1, Nat.le_refl 1, Nat.le_refl 1, Nat.le_refl 1,
    Nat.le_refl 1, Nat.le_refl 1, Nat.le_refl 1, Nat.le_refl 1,
    Nat.le_refl 1, Nat.le_refl 1, ?_, ?_, ?_⟩
  · unfold BasicBot.place_oco_order
    dsimp only
    split
    · exact Or.inl rfl
    · exact Or.inr rfl
  · exact dispatch_quit_false pf pi b w rest
  · intro hq
    rw [runLoop_cons_not_quit pf pi b line rest2 hq,
      dispatch_bot pf pi b (tokenize line)]

/-- C8 witness: on the all-failing client, the failed balance command
does not quit, and the loop goes on to process the next line. -/
theorem C8_witness :
    (dispatch pfTest piTest errBot ["balance"]).quit = false ∧
    runLoop pfTest piTest errBot ["balance", "quit"] =
      ((dispatch pfTest piTest errBot (tokenize "balance")).msgs ++
         (runLoop pfTest piTest errBot ["quit"]).1,
       (dispatch pfTest piTest errBot (tokenize "balance")).calls ++
         (runLoop pfTest piTest errBot ["quit"]).2) :=
  ⟨(C8_no_retry pfTest piTest errBot "BTCUSDT" "BUY" 1 2 3 4 false 5 10
      "balance" "balance" [] ["quit"]).2.2.2.2.2.2.2.2.2.2.2.1 (by decide),
   (C8_no_retry pfTest piTest errBot "BTCUSDT" "BUY" 1 2 3 4 false 5 10
      "balance" "balance" [] ["quit"]).2.2.2.2.2.2.2.2.2.2.2.2 rfl⟩

/-- C9: `get_current_price` returns the float 0.0 whenever the
underlying ticker call raises, exactly what it returns when the
exchange reports a genuine price of zero — the two are
indistinguishable at the interface; and the price command always prints
a price message (never an error payload). -/
theorem C9_price_zero_on_failure (pf : String → Option ℚ)
    (pi : String → Option Int) (b bz : BasicBot) (symbol e : String)
    (w : String) (rest : List String) :
    (b.client.futures_symbol_ticker symbol = .error e →
      (b.get_current_price symbol).price = 0) ∧
    (bz.client.futures_symbol_ticker symbol = .ok ⟨0⟩ →
      (bz.get_current_price symbol).price = 0) ∧
    (lowerString w = "price" → ¬ (w :: rest).length < 2 →
      (dispatch pf pi b (w :: rest)).msgs =
        [Msg.price (upperString (arg (w :: rest) 1))
          (b.get_current_price (upperString (arg (w :: rest) 1))).price]) := by
  refine ⟨?_, ?_, ?_⟩
  · intro h
    unfold BasicBot.get_current_price
    simp [h]
  · intro h
    unfold BasicBot.get_current_price
    simp [h]
  · intro h hlen
    rw [dispatch_price_run pf pi b w rest h hlen]

/-- C9 witness: a failed ticker call and a genuine zero ticker both
yield the price 0, and the price command on the failing client prints a
price message. -/
theorem C9_witness :
    (errBot.get_current_price "BTCUSDT").price = 0 ∧
    (zeroTickBot.get_current_price "BTCUSDT").price = 0 ∧
    (dispatch pfTest piTest errBot ["price", "btcusdt"]).msgs =
      [Msg.price (upperString (arg ["price", "btcusdt"] 1))
        (errBot.get_current_price
          (upperString (arg ["price", "btcusdt"] 1))).price] :=
  ⟨(C9_price_zero_on_failure pfTest piTest errBot zeroTickBot "BTCUSDT"
      "boom" "price" ["btcusdt"]).1 rfl,
   (C9_price_zero_on_failure pfTest piTest errBot zeroTickBot "BTCUSDT"
      "boom" "price" ["btcusdt"]).2.1 rfl,
   (C9_price_zero_on_failure pfTest piTest errBot zeroTickBot "BTCUSDT"
      "boom" "price" ["btcusdt"]).2.2 rfl (by decide)⟩

/-- C10: `--testnet` is a store-true option with default `True`, so the
parsed arguments carry `testnet = True` whether or not the flag is
present, and the bot `main` constructs always has `testnet = true`; the
command line offers no way to select the live environment. -/
theorem C10_testnet_always_true (mk : String → String → Bool → Client)
    (k s : String) (present : Bool) :
    (parse_args k s present).testnet = true ∧
    (mainBot mk k s present).testnet = true := by
  cases present <;> exact ⟨rfl, rfl⟩

end TradingBot
